import Mathlib

/-!
Verification of the zcash-htlc-builder core: a shallow embedding of its
script construction, transaction building, signing script-sig assembly,
store operations and coordinator control flow, with theorems checking the
natural-language specification against the code.

Bytes are modelled as `Nat` values (each < 256 where produced by the code),
byte strings as `List Nat`, and machine integers as `Nat`/`Int` with
explicit reduction modulo 2^32 where the code relies on wrapping.
-/

namespace ZcashHtlc

/-! ## Hex encoding and decoding (the Rust hex crate) -/

/-- Value of one hex digit; accepts both cases, as hex::decode does. -/
def hexDigitVal (c : Char) : Option Nat :=
  let n := c.toNat
  if 48 ≤ n ∧ n ≤ 57 then some (n - 48)
  else if 97 ≤ n ∧ n ≤ 102 then some (n - 87)
  else if 65 ≤ n ∧ n ≤ 70 then some (n - 55)
  else none

/-- Decode a list of hex characters two at a time; odd length or a bad
digit fails, as in hex::decode. -/
def hexDecodeChars : List Char → Option (List Nat)
  | [] => some []
  | [_] => none
  | c1 :: c2 :: rest => do
    let h ← hexDigitVal c1
    let l ← hexDigitVal c2
    let tail ← hexDecodeChars rest
    pure ((h * 16 + l) :: tail)

/-- hex::decode on a string. -/
def hexDecode (s : String) : Option (List Nat) :=
  hexDecodeChars s.data

/-- Lowercase hex digit for a value < 16, as hex::encode emits. -/
def hexDigitChar (n : Nat) : Char :=
  if n < 10 then Char.ofNat (48 + n) else Char.ofNat (87 + n)

/-- hex::encode of a byte list: two lowercase digits per byte. -/
def hexEncode (bs : List Nat) : String :=
  ⟨bs.flatMap (fun b => [hexDigitChar (b / 16), hexDigitChar (b % 16)])⟩

/-- ASCII lowercase of a string: used only to state the spec's
case-insensitive comparison. -/
def asciiLower (s : String) : String :=
  ⟨s.data.map (fun c =>
    if 65 ≤ c.toNat ∧ c.toNat ≤ 90 then Char.ofNat (c.toNat + 32) else c)⟩

/-! ## SHA-256 over byte lists -/

/-- Reduce to a 32-bit word. -/
def w32 (n : Nat) : Nat := n % 4294967296

/-- 32-bit right rotation. -/
def rotr32 (n x : Nat) : Nat := w32 ((x >>> n) ||| (x <<< (32 - n)))

/-- 32-bit left rotation. -/
def rotl32 (n x : Nat) : Nat := w32 ((x <<< n) ||| (x >>> (32 - n)))

/-- 32-bit complement. -/
def not32 (x : Nat) : Nat := x ^^^ 4294967295

/-- The 64 SHA-256 round constants. -/
def shaK : List Nat :=
  [1116352408, 1899447441, 3049323471, 3921009573, 961987163,
   1508970993, 2453635748, 2870763221, 3624381080, 310598401,
   607225278, 1426881987, 1925078388, 2162078206, 2614888103,
   3248222580, 3835390401, 4022224774, 264347078, 604807628,
   770255983, 1249150122, 1555081692, 1996064986, 2554220882,
   2821834349, 2952996808, 3210313671, 3336571891, 3584528711,
   113926993, 338241895, 666307205, 773529912, 1294757372,
   1396182291, 1695183700, 1986661051, 2177026350, 2456956037,
   2730485921, 2820302411, 3259730800, 3345764771, 3516065817,
   3600352804, 4094571909, 275423344, 430227734, 506948616,
   659060556, 883997877, 958139571, 1322822218, 1537002063,
   1747873779, 1955562222, 2024104815, 2227730452, 2361852424,
   2428436474, 2756734187, 3204031479, 3329325298]

/-- SHA-256 working state: the eight 32-bit words. -/
structure Sha256State where
  a : Nat
  b : Nat
  c : Nat
  d : Nat
  e : Nat
  f : Nat
  g : Nat
  h : Nat
deriving DecidableEq, Repr

/-- The SHA-256 initial hash value. -/
def sha256Init : Sha256State :=
  ⟨1779033703, 3144134277, 1013904242, 2773480762,
   1359893119, 2600822924, 528734635, 1541459225⟩

/-- Extend the 16 message words of a block to the 64-entry schedule.
`ws` is the sliding window of the previous 16 words. -/
def shaExtend : Nat → List Nat → List Nat
  | 0, _ => []
  | fuel + 1, ws =>
    let wt := w32 (((rotr32 17 (ws.getD 14 0)) ^^^ (rotr32 19 (ws.getD 14 0)) ^^^ ((ws.getD 14 0) >>> 10))
      + (ws.getD 9 0)
      + ((rotr32 7 (ws.getD 1 0)) ^^^ (rotr32 18 (ws.getD 1 0)) ^^^ ((ws.getD 1 0) >>> 3))
      + (ws.getD 0 0))
    wt :: shaExtend fuel (ws.drop 1 ++ [wt])

/-- One SHA-256 round. -/
def shaRound (st : Sha256State) (k w : Nat) : Sha256State :=
  let s1 := (rotr32 6 st.e) ^^^ (rotr32 11 st.e) ^^^ (rotr32 25 st.e)
  let ch := (st.e &&& st.f) ^^^ ((not32 st.e) &&& st.g)
  let t1 := w32 (st.h + s1 + ch + k + w)
  let s0 := (rotr32 2 st.a) ^^^ (rotr32 13 st.a) ^^^ (rotr32 22 st.a)
  let maj := (st.a &&& st.b) ^^^ (st.a &&& st.c) ^^^ (st.b &&& st.c)
  let t2 := w32 (s0 + maj)
  ⟨w32 (t1 + t2), st.a, st.b, st.c, w32 (st.d + t1), st.e, st.f, st.g⟩

/-- Run the 64 rounds over paired constants and schedule words. -/
def shaRounds (st : Sha256State) : List (Nat × Nat) → Sha256State
  | [] => st
  | (k, w) :: rest => shaRounds (shaRound st k w) rest

/-- Big-endian 32-bit words from a byte list (length a multiple of 4). -/
def bytesToWordsBE : List Nat → List Nat
  | b0 :: b1 :: b2 :: b3 :: rest =>
    (b0 * 16777216 + b1 * 65536 + b2 * 256 + b3) :: bytesToWordsBE rest
  | _ => []

/-- Compress one 64-byte block into the running state. -/
def sha256Compress (st : Sha256State) (block : List Nat) : Sha256State :=
  let w16 := bytesToWordsBE block
  let ws := w16 ++ shaExtend 48 w16
  let r := shaRounds st (shaK.zip ws)
  ⟨w32 (st.a + r.a), w32 (st.b + r.b), w32 (st.c + r.c), w32 (st.d + r.d),
   w32 (st.e + r.e), w32 (st.f + r.f), w32 (st.g + r.g), w32 (st.h + r.h)⟩

/-- Fold the compression over successive 64-byte blocks; the fuel is an
upper bound on the number of blocks. -/
def sha256Blocks : Nat → Sha256State → List Nat → Sha256State
  | 0, st, _ => st
  | _ + 1, st, [] => st
  | fuel + 1, st, bs => sha256Blocks fuel (sha256Compress st (bs.take 64)) (bs.drop 64)

/-- Merkle–Damgård padding: 0x80, zeros to 56 mod 64, 8-byte big-endian
bit length. -/
def sha256Pad (msg : List Nat) : List Nat :=
  let l := msg.length
  let zeros := (64 - ((l + 9) % 64)) % 64
  let bits := l * 8
  msg ++ [0x80] ++ List.replicate zeros 0 ++
    [w32 (bits / 4294967296) / 16777216 % 256,
     w32 (bits / 4294967296) / 65536 % 256,
     w32 (bits / 4294967296) / 256 % 256,
     w32 (bits / 4294967296) % 256,
     bits / 16777216 % 256, bits / 65536 % 256, bits / 256 % 256, bits % 256]

/-- Big-endian bytes of one 32-bit word. -/
def wordToBytesBE (x : Nat) : List Nat :=
  [x / 16777216 % 256, x / 65536 % 256, x / 256 % 256, x % 256]

/-- SHA-256 of a byte list, as 32 bytes. -/
def sha256 (msg : List Nat) : List Nat :=
  let padded := sha256Pad msg
  let st := sha256Blocks (padded.length / 64 + 1) sha256Init padded
  wordToBytesBE st.a ++ wordToBytesBE st.b ++ wordToBytesBE st.c ++ wordToBytesBE st.d ++
    wordToBytesBE st.e ++ wordToBytesBE st.f ++ wordToBytesBE st.g ++ wordToBytesBE st.h

/-! ## RIPEMD-160 over byte lists -/

/-- Left-lane message word order. -/
def rmdR : List Nat :=
  [0, 1, 2, 3, 4, 5, 6, 7, 8, 9, 10, 11, 12, 13, 14, 15,
   7, 4, 13, 1, 10, 6, 15, 3, 12, 0, 9, 5, 2, 14, 11, 8,
   3, 10, 14, 4, 9, 15, 8, 1, 2, 7, 0, 6, 13, 11, 5, 12,
   1, 9, 11, 10, 0, 8, 12, 4, 13, 3, 7, 15, 14, 5, 6, 2,
   4, 0, 5, 9, 7, 12, 2, 10, 14, 1, 3, 8, 11, 6, 15, 13]

/-- Right-lane message word order. -/
def rmdRp : List Nat :=
  [5, 14, 7, 0, 9, 2, 11, 4, 13, 6, 15, 8, 1, 10, 3, 12,
   6, 11, 3, 7, 0, 13, 5, 10, 14, 15, 8, 12, 4, 9, 1, 2,
   15, 5, 1, 3, 7, 14, 6, 9, 11, 8, 12, 2, 10, 0, 4, 13,
   8, 6, 4, 1, 3, 11, 15, 0, 5, 12, 2, 13, 9, 7, 10, 14,
   12, 15, 10, 4, 1, 5, 8, 7, 6, 2, 13, 14, 0, 3, 9, 11]

/-- Left-lane rotation amounts. -/
def rmdS : List Nat :=
  [11, 14, 15, 12, 5, 8, 7, 9, 11, 13, 14, 15, 6, 7, 9, 8,
   7, 6, 8, 13, 11, 9, 7, 15, 7, 12, 15, 9, 11, 7, 13, 12,
   11, 13, 6, 7, 14, 9, 13, 15, 14, 8, 13, 6, 5, 12, 7, 5,
   11, 12, 14, 15, 14, 15, 9, 8, 9, 14, 5, 6, 8, 6, 5, 12,
   9, 15, 5, 11, 6, 8, 13, 12, 5, 12, 13, 14, 11, 8, 5, 6]

/-- Right-lane rotation amounts. -/
def rmdSp : List Nat :=
  [8, 9, 9, 11, 13, 15, 15, 5, 7, 7, 8, 11, 14, 14, 12, 6,
   9, 13, 15, 7, 12, 8, 9, 11, 7, 7, 12, 7, 6, 15, 13, 11,
   9, 7, 15, 11, 8, 6, 6, 14, 12, 13, 5, 14, 13, 13, 7, 5,
   15, 5, 8, 11, 14, 14, 6, 14, 6, 9, 12, 9, 12, 5, 15, 8,
   8, 5, 12, 9, 12, 5, 14, 6, 8, 13, 6, 5, 15, 13, 11, 11]

/-- The five RIPEMD selection functions, chosen by round group. -/
def rmdF (ix x y z : Nat) : Nat :=
  if ix = 0 then x ^^^ y ^^^ z
  else if ix = 1 then (x &&& y) ||| ((not32 x) &&& z)
  else if ix = 2 then (x ||| (not32 y)) ^^^ z
  else if ix = 3 then (x &&& z) ||| (y &&& (not32 z))
  else x ^^^ (y ||| (not32 z))

/-- Left-lane round constants, by round group. -/
def rmdK (ix : Nat) : Nat :=
  if ix = 0 then 0 else if ix = 1 then 1518500249 else if ix = 2 then 1859775393
  else if ix = 3 then 2400959708 else 2840853838

/-- Right-lane round constants, by round group. -/
def rmdKp (ix : Nat) : Nat :=
  if ix = 0 then 1352829926 else if ix = 1 then 1548603684 else if ix = 2 then 1836072691
  else if ix = 3 then 2053994217 else 0

/-- RIPEMD-160 lane state: five 32-bit words. -/
structure RmdLane where
  a : Nat
  b : Nat
  c : Nat
  d : Nat
  e : Nat
deriving DecidableEq, Repr

/-- One RIPEMD-160 lane round at index `j` (0..79) using word order `r`,
rotations `s`, constant selector `k`, and selector order `fsel`. -/
def rmdRound (x : List Nat) (r s : List Nat) (k : Nat → Nat) (fsel : Nat → Nat)
    (st : RmdLane) (j : Nat) : RmdLane :=
  let grp := j / 16
  let t := w32 (rotl32 (s.getD j 0)
    (w32 (st.a + rmdF (fsel grp) st.b st.c st.d + x.getD (r.getD j 0) 0 + k grp)) + st.e)
  ⟨st.e, t, st.b, rotl32 10 st.c, st.d⟩

/-- Run a lane over rounds `j`, `j+1`, ... for `fuel` rounds. -/
def rmdLaneRun (x : List Nat) (r s : List Nat) (k : Nat → Nat) (fsel : Nat → Nat) :
    Nat → Nat → RmdLane → RmdLane
  | 0, _, st => st
  | fuel + 1, j, st => rmdLaneRun x r s k fsel fuel (j + 1) (rmdRound x r s k fsel st j)

/-- Little-endian 32-bit words from a byte list (length a multiple of 4). -/
def bytesToWordsLE : List Nat → List Nat
  | b0 :: b1 :: b2 :: b3 :: rest =>
    (b0 + b1 * 256 + b2 * 65536 + b3 * 16777216) :: bytesToWordsLE rest
  | _ => []

/-- Compress one 64-byte block into the RIPEMD-160 chaining value. -/
def rmdCompress (h : RmdLane) (block : List Nat) : RmdLane :=
  let x := bytesToWordsLE block
  let l := rmdLaneRun x rmdR rmdS rmdK (fun g => g) 80 0 h
  let r := rmdLaneRun x rmdRp rmdSp rmdKp (fun g => 4 - g) 80 0 h
  ⟨w32 (h.b + l.c + r.d), w32 (h.c + l.d + r.e), w32 (h.d + l.e + r.a),
   w32 (h.e + l.a + r.b), w32 (h.a + l.b + r.c)⟩

/-- Fold the RIPEMD compression over 64-byte blocks. -/
def rmdBlocks : Nat → RmdLane → List Nat → RmdLane
  | 0, st, _ => st
  | _ + 1, st, [] => st
  | fuel + 1, st, bs => rmdBlocks fuel (rmdCompress st (bs.take 64)) (bs.drop 64)

/-- RIPEMD padding: like SHA-256 but with a little-endian bit length. -/
def rmdPad (msg : List Nat) : List Nat :=
  let l := msg.length
  let zeros := (64 - ((l + 9) % 64)) % 64
  let bits := l * 8
  msg ++ [0x80] ++ List.replicate zeros 0 ++
    [bits % 256, bits / 256 % 256, bits / 65536 % 256, bits / 16777216 % 256,
     bits / 4294967296 % 256, bits / 1099511627776 % 256,
     bits / 281474976710656 % 256, bits / 72057594037927936 % 256]

/-- Little-endian bytes of one 32-bit word. -/
def wordToBytesLE (x : Nat) : List Nat :=
  [x % 256, x / 256 % 256, x / 65536 % 256, x / 16777216 % 256]

/-- RIPEMD-160 of a byte list, as 20 bytes. -/
def ripemd160 (msg : List Nat) : List Nat :=
  let padded := rmdPad msg
  let st := rmdBlocks (padded.length / 64 + 1)
    ⟨1732584193, 4023233417, 2562383102, 271733878, 3285377520⟩ padded
  wordToBytesLE st.a ++ wordToBytesLE st.b ++ wordToBytesLE st.c ++
    wordToBytesLE st.d ++ wordToBytesLE st.e

/-- hash160 = RIPEMD-160 of SHA-256, the bitcoin script-hash function. -/
def hash160 (msg : List Nat) : List Nat := ripemd160 (sha256 msg)

/-! ## Base58 (the bs58 crate, Bitcoin alphabet) -/

/-- The Bitcoin base58 alphabet. -/
def b58Alphabet : List Char :=
  ("123456789ABCDEFGHJKLMNPQRSTUVWXYZabcdefghijkmnopqrstuvwxyz").data

/-- Digit value of a base58 character, if any. -/
def b58Val (c : Char) : Option Nat :=
  b58Alphabet.indexOf? c

/-- Digits of `n` in base 256, most significant first. The fuel bounds the
number of digits. -/
def natToBytesBE : Nat → Nat → List Nat
  | 0, _ => []
  | _ + 1, 0 => []
  | fuel + 1, n => natToBytesBE fuel (n / 256) ++ [n % 256]

/-- bs58 decode: fail on any character outside the alphabet, interpret the
digits as a big-endian base-58 number, and prepend one zero byte per
leading '1'. -/
def b58decode (s : String) : Option (List Nat) := do
  let vals ← s.data.mapM b58Val
  let n := vals.foldl (fun acc v => acc * 58 + v) 0
  let leading := (s.data.takeWhile (fun c => c = '1')).length
  pure (List.replicate leading 0 ++ natToBytesBE s.length n)

/-- Digits of `n` in base 58, most significant first. -/
def natToB58 : Nat → Nat → List Char
  | 0, _ => []
  | _ + 1, 0 => []
  | fuel + 1, n => natToB58 fuel (n / 58) ++ [b58Alphabet.getD (n % 58) '1']

/-- bs58 encode: big-endian base-58 digits of the byte value, one '1' per
leading zero byte. -/
def b58encode (bs : List Nat) : String :=
  let n := bs.foldl (fun acc b => acc * 256 + b) 0
  let leading := (bs.takeWhile (fun b => b = 0)).length
  ⟨List.replicate leading '1' ++ natToB58 (bs.length * 2) n⟩

/-! ## Bitcoin script building (rust-bitcoin 0.29 Builder)

`push_slice` length-prefixes its data: a single length byte below
`OP_PUSHDATA1` (0x4c = 76), then the PUSHDATA forms. `push_opcode` appends
the opcode byte. Opcode values: OP_FALSE/OP_0 = 0x00, OP_TRUE/OP_PUSHNUM_1
= 0x51, OP_IF = 0x63, OP_ELSE = 0x67, OP_ENDIF = 0x68, OP_DROP = 0x75,
OP_DUP = 0x76, OP_EQUAL = 0x87, OP_EQUALVERIFY = 0x88, OP_SHA256 = 0xa8,
OP_HASH160 = 0xa9, OP_CHECKSIG = 0xac, OP_CLTV = 0xb1. -/

/-- Builder::push_slice: minimal push encoding of a data item. -/
def pushSlice (data : List Nat) : List Nat :=
  (if data.length < 76 then [data.length]
   else if data.length < 256 then [76, data.length]
   else if data.length < 65536 then [77, data.length % 256, data.length / 256]
   else [78, data.length % 256, data.length / 256 % 256,
         data.length / 65536 % 256, data.length / 16777216 % 256]) ++ data

/-- The low-byte-first loop of rust-bitcoin's build_scriptint: emit low
bytes while the remainder exceeds 0xFF, returning them with the final
remainder. -/
def scriptIntLoop : Nat → Nat → List Nat × Nat
  | 0, a => ([], a)
  | fuel + 1, a =>
    if 255 < a then
      let (v, r) := scriptIntLoop fuel (a / 256)
      ((a % 256) :: v, r)
    else ([], a)

/-- rust-bitcoin build_scriptint: minimal signed little-endian number
encoding, with a sign byte when the top bit is set. -/
def buildScriptInt (n : Int) : List Nat :=
  if n = 0 then []
  else
    let (v, last) := scriptIntLoop 9 n.natAbs
    if 128 ≤ last then v ++ [last, if n < 0 then 128 else 0]
    else v ++ [last + (if n < 0 then 128 else 0)]

/-- Builder::push_int: -1 and 1..16 become OP_PUSHNUM opcodes, 0 becomes
OP_0, anything else a pushed scriptint. -/
def pushInt (n : Int) : List Nat :=
  if n = -1 ∨ (1 ≤ n ∧ n ≤ 16) then [(n - 1 + 0x51).toNat]
  else if n = 0 then [0x00]
  else pushSlice (buildScriptInt n)

/-- The `timelock as i64` cast of a u64 value. -/
def u64AsI64 (t : Nat) : Int :=
  if t < 9223372036854775808 then (t : Int) else (t : Int) - 18446744073709551616

/-! ## Data model (models/mod.rs) -/

/-- ZcashNetwork: the two supported chains. -/
inductive ZcashNetwork
  | mainnet
  | testnet
deriving DecidableEq, Repr

/-- The network's two-byte P2PKH version bytes (p2pkh_prefix in the
source). -/
def ZcashNetwork.p2pkhVersionBytes : ZcashNetwork → List Nat
  | .mainnet => [0x1c, 0xb8]
  | .testnet => [0x1d, 0x25]

/-- The network's two-byte P2SH version bytes (p2sh_prefix in the
source). -/
def ZcashNetwork.p2shVersionBytes : ZcashNetwork → List Nat
  | .mainnet => [0x1c, 0xbd]
  | .testnet => [0x1c, 0xba]

/-- HTLCParams: the caller-supplied contract parameters. -/
structure HTLCParams where
  recipient_pubkey : String
  refund_pubkey : String
  hash_lock : String
  timelock : Nat
  amount : String
deriving DecidableEq, Repr

/-- A funding UTXO as the builder receives it. -/
structure UTXO where
  txid : String
  vout : Nat
  amount : String
  script_pubkey : String
  confirmations : Nat
deriving DecidableEq, Repr

/-- A transaction input; the txid is kept as its validated hex string. -/
structure TxIn where
  prevTxid : String
  prevVout : Nat
  script_sig : List Nat
  sequence : Nat
deriving DecidableEq, Repr

/-- A transaction output. -/
structure TxOut where
  value : Nat
  script_pubkey : List Nat
deriving DecidableEq, Repr

/-- A transparent transaction as the builder assembles it. -/
structure Transaction where
  version : Nat
  lockTime : Nat
  input : List TxIn
  output : List TxOut
deriving DecidableEq, Repr

/-! ## Script builder (script.rs) -/

/-- HTLCScriptError, as in script.rs. -/
inductive HTLCScriptError
  | invalidHashLock
  | invalidHashLockLength
  | invalidPublicKey
  | invalidSecret
  | buildError
deriving DecidableEq, Repr

/-- Turn an optional value into an Except with the given error. -/
def liftOpt (o : Option α) (e : ε) : Except ε α :=
  match o with
  | some a => Except.ok a
  | none => Except.error e

/-- The Rust `collect::<Result<Vec<_>, _>>()` over an iterator map: stop
at the first error, otherwise keep all results in order. -/
def mapExcept (f : α → Except ε β) : List α → Except ε (List β)
  | [] => Except.ok []
  | a :: as =>
    match f a with
    | Except.error e => Except.error e
    | Except.ok b =>
      match mapExcept f as with
      | Except.error e => Except.error e
      | Except.ok bs => Except.ok (b :: bs)

/-- The same collection pattern over Option. -/
def mapOption (f : α → Option β) : List α → Option (List β)
  | [] => some []
  | a :: as => (f a).bind (fun b => (mapOption f as).map (fun bs => b :: bs))

/-- Whether an Except is ok. -/
def exceptIsOk : Except ε α → Bool
  | Except.ok _ => true
  | Except.error _ => false

/-- build_htlc_script: OP_IF OP_SHA256 <hash_lock> OP_EQUALVERIFY
<recipient_pubkey> OP_CHECKSIG OP_ELSE <timelock> OP_CLTV OP_DROP
<refund_pubkey> OP_CHECKSIG OP_ENDIF, with the timelock pushed through
push_int after a `u64 as i64` cast. -/
def build_htlc_script (params : HTLCParams) : Except HTLCScriptError (List Nat) := do
  let hash_lock_bytes ← liftOpt (hexDecode params.hash_lock) HTLCScriptError.invalidHashLock
  if hash_lock_bytes.length ≠ 32 then throw HTLCScriptError.invalidHashLockLength
  let recipient_pubkey ← liftOpt (hexDecode params.recipient_pubkey) HTLCScriptError.invalidPublicKey
  let refund_pubkey ← liftOpt (hexDecode params.refund_pubkey) HTLCScriptError.invalidPublicKey
  pure ([0x63, 0xa8] ++ pushSlice hash_lock_bytes ++ [0x88] ++
    pushSlice recipient_pubkey ++ [0xac, 0x67] ++
    pushInt (u64AsI64 params.timelock) ++ [0xb1, 0x75] ++
    pushSlice refund_pubkey ++ [0xac, 0x68])

/-- script_to_p2sh_address: hash160 the script, prepend the P2SH version
bytes, append the 4-byte double-SHA-256 checksum, base58-encode. The Rust
signature returns Result but no path errors. -/
def script_to_p2sh_address (network : ZcashNetwork) (script : List Nat) : String :=
  let address_bytes := network.p2shVersionBytes ++ hash160 script
  let checksum := (sha256 (sha256 address_bytes)).take 4
  b58encode (address_bytes ++ checksum)

/-- build_redeem_input: push(sig) push(secret bytes) OP_TRUE; fails on a
non-hex secret. -/
def build_redeem_input (secret : String) (signature : List Nat) :
    Except HTLCScriptError (List Nat) := do
  let secret_bytes ← liftOpt (hexDecode secret) HTLCScriptError.invalidSecret
  pure (pushSlice signature ++ pushSlice secret_bytes ++ [0x51])

/-- build_refund_input: push(sig) OP_FALSE. -/
def build_refund_input (signature : List Nat) : List Nat :=
  pushSlice signature ++ [0x00]

/-- verify_secret: hex-decode the secret, SHA-256 it, hex-encode
(lowercase) and compare with the hash_lock by string equality. -/
def verify_secret (secret hash_lock : String) : Bool :=
  match hexDecode secret with
  | none => false
  | some secret_bytes => hexEncode (sha256 secret_bytes) = hash_lock

/-- p2sh_script_pubkey: OP_HASH160 push(hash160 script) OP_EQUAL. -/
def p2sh_script_pubkey (script : List Nat) : List Nat :=
  [0xa9] ++ pushSlice (hash160 script) ++ [0x87]

/-! ## Signer script-sig assembly (signer.rs)

The ECDSA signing itself (`sign_input`) calls into secp256k1 and is kept
abstract: the functions below take the produced signature bytes
(DER || 0x01) as a parameter and model exactly how signer.rs assembles the
final script_sig from them. -/

/-- sign_htlc_redeem, lines 61–71: build_redeem_input gives the inner
script, and the final script_sig pushes the whole serialized inner script
as ONE data item, followed by a push of the redeem script. -/
def sign_htlc_redeem_scriptSig (signature : List Nat) (secret : String)
    (redeem_script : List Nat) : Except HTLCScriptError (List Nat) := do
  let script_sig ← build_redeem_input secret signature
  pure (pushSlice script_sig ++ pushSlice redeem_script)

/-- sign_htlc_refund, lines 86–91: the same nesting with
build_refund_input. -/
def sign_htlc_refund_scriptSig (signature : List Nat) (redeem_script : List Nat) : List Nat :=
  pushSlice (build_refund_input signature) ++ pushSlice redeem_script

/-- From the spec's words (C1): the redeem script_sig as four flat items
push(sig) push(secret) OP_TRUE push(redeem_script). -/
def specRedeemScriptSig (signature secret_bytes redeem_script : List Nat) : List Nat :=
  pushSlice signature ++ pushSlice secret_bytes ++ [0x51] ++ pushSlice redeem_script

/-- From the spec's words (C1): the refund script_sig as three flat items
push(sig) OP_FALSE push(redeem_script). -/
def specRefundScriptSig (signature redeem_script : List Nat) : List Nat :=
  pushSlice signature ++ [0x00] ++ pushSlice redeem_script

/-! ## Transaction builder (builder.rs)

`parse_amount` converts the decimal string through `f64` parsing and
multiplication; IEEE-754 semantics are outside this embedding, so every
builder takes the amount parser as an explicit function parameter
(`none` modelling the Err(InvalidAmount) path). Everything else follows
builder.rs line by line. -/

/-- TxBuilderError, as in builder.rs. -/
inductive TxBuilderError
  | invalidAmount
  | amountTooSmall
  | insufficientFunds (required available : Nat)
  | invalidTxid
  | invalidAddress
  | unsupportedAddressType
  | invalidTimelock
  | invalidHex
  | scriptError
  | deserializationError
deriving DecidableEq, Repr

/-- An amount parser stands in for parse_amount's f64 pipeline. -/
def AmountParser : Type := String → Option Nat

/-- DUST_THRESHOLD from builder.rs. -/
def DUST_THRESHOLD : Nat := 546

/-- DEFAULT_FEE_RATE from builder.rs. -/
def DEFAULT_FEE_RATE : Nat := 1000

/-- estimate_tx_size from builder.rs. -/
def estimate_tx_size (num_inputs num_outputs : Nat) : Nat :=
  10 + num_inputs * 180 + num_outputs * 34

/-- Txid::from_str succeeds exactly on 64 hex characters; the txid is kept
as its string. -/
def txidFromStr (s : String) : Option String :=
  if s.length = 64 ∧ s.data.all (fun c => (hexDigitVal c).isSome) then some s else none

/-- address_to_script_pubkey: base58-decode, require ≥ 26 bytes, read the
2-byte version and the 20 bytes after it, and dispatch on the version
bytes. builder.rs lines 219–249: the 4 checksum bytes are read past but
never verified. -/
def address_to_script_pubkey (network : ZcashNetwork) (address : String) :
    Except TxBuilderError (List Nat) := do
  let decoded ← liftOpt (b58decode address) TxBuilderError.invalidAddress
  if decoded.length < 26 then throw TxBuilderError.invalidAddress
  let hash := (decoded.drop 2).take 20
  let version := decoded.take 2
  if version = network.p2pkhVersionBytes then
    pure ([0x76, 0xa9] ++ pushSlice hash ++ [0x88, 0xac])
  else if version = network.p2shVersionBytes then
    pure ([0xa9] ++ pushSlice hash ++ [0x87])
  else
    throw TxBuilderError.unsupportedAddressType

/-- build_htlc_tx: parse the amount, reject dust, build the redeem script
and its P2SH scriptPubKey, convert the UTXOs to inputs with sequence
0xFFFFFFFF, sum their amounts, and fee from the 2-output size estimate;
output 0 is the HTLC output and a change output is appended only when
change exceeds the dust threshold. Version 4, lock_time 0. -/
def build_htlc_tx (pa : AmountParser) (network : ZcashNetwork) (params : HTLCParams)
    (utxos : List UTXO) (change_address : String) :
    Except TxBuilderError (Transaction × List Nat) := do
  let amount_sat ← liftOpt (pa params.amount) TxBuilderError.invalidAmount
  if amount_sat < DUST_THRESHOLD then throw TxBuilderError.amountTooSmall
  let redeem_script ← (build_htlc_script params).mapError (fun _ => TxBuilderError.scriptError)
  let script_pubkey := p2sh_script_pubkey redeem_script
  let inputs ← mapExcept (fun u =>
    (liftOpt (txidFromStr u.txid) TxBuilderError.invalidTxid).map
      (fun t => TxIn.mk t u.vout [] 0xFFFFFFFF)) utxos
  let amounts ← mapExcept (fun u => liftOpt (pa u.amount) TxBuilderError.invalidAmount) utxos
  let total_input := amounts.sum
  let estimated_size := estimate_tx_size inputs.length 2
  let fee := estimated_size * DEFAULT_FEE_RATE / 1000
  if total_input < amount_sat + fee then
    throw (TxBuilderError.insufficientFunds (amount_sat + fee) total_input)
  let change := total_input - amount_sat - fee
  let outputs ←
    if DUST_THRESHOLD < change then do
      let change_script ← address_to_script_pubkey network change_address
      pure [TxOut.mk amount_sat script_pubkey, TxOut.mk change change_script]
    else
      pure [TxOut.mk amount_sat script_pubkey]
  pure (Transaction.mk 4 0 inputs outputs, redeem_script)

/-- build_redeem_tx: single input at the HTLC outpoint with sequence
0xFFFFFFFF, single output of amount − fee to the recipient, version 4,
lock_time 0. The secret and redeem_script parameters are accepted but
unused, as in the source. -/
def build_redeem_tx (pa : AmountParser) (network : ZcashNetwork) (htlc_txid : String)
    (htlc_vout : Nat) (htlc_amount : String) (_secret : String) (_redeem_script : List Nat)
    (recipient_address : String) : Except TxBuilderError Transaction := do
  let t ← liftOpt (txidFromStr htlc_txid) TxBuilderError.invalidTxid
  let amount_sat ← liftOpt (pa htlc_amount) TxBuilderError.invalidAmount
  let fee := estimate_tx_size 1 1 * DEFAULT_FEE_RATE / 1000
  if amount_sat ≤ fee then throw TxBuilderError.amountTooSmall
  let output_script ← address_to_script_pubkey network recipient_address
  pure (Transaction.mk 4 0 [TxIn.mk t htlc_vout [] 0xFFFFFFFF]
    [TxOut.mk (amount_sat - fee) output_script])

/-- build_refund_tx: the same shape as build_redeem_tx but lock_time is
the timelock cast `as u32`; builder.rs line 175 sets the input sequence to
0xFFFFFFFF. The redeem_script parameter is unused, as in the source. -/
def build_refund_tx (pa : AmountParser) (network : ZcashNetwork) (htlc_txid : String)
    (htlc_vout : Nat) (htlc_amount : String) (timelock : Nat) (_redeem_script : List Nat)
    (refund_address : String) : Except TxBuilderError Transaction := do
  let t ← liftOpt (txidFromStr htlc_txid) TxBuilderError.invalidTxid
  let amount_sat ← liftOpt (pa htlc_amount) TxBuilderError.invalidAmount
  let fee := estimate_tx_size 1 1 * DEFAULT_FEE_RATE / 1000
  if amount_sat ≤ fee then throw TxBuilderError.amountTooSmall
  let output_script ← address_to_script_pubkey network refund_address
  pure (Transaction.mk 4 (timelock % 4294967296) [TxIn.mk t htlc_vout [] 0xFFFFFFFF]
    [TxOut.mk (amount_sat - fee) output_script])

/-! ## Store model (database/operations.rs)

The store is modelled as the in-memory lists of rows the SQL tables hold.
Each diesel update statement filters on the id column and writes its set
clause to every matching row; `updated_at` bumps are wall-clock effects
and are not modelled. An insert fails (unique primary key) when the id is
already present, leaving the table unchanged. -/

/-- HTLCState with its i16 codes 0..5. -/
inductive HTLCState
  | pending
  | locked
  | redeemed
  | refunded
  | expired
  | failed
deriving DecidableEq, Repr

/-- A zcash_htlcs row (timestamps omitted). -/
structure HtlcRow where
  id : String
  txid : Option String
  p2sh_address : String
  hash_lock : String
  secret : Option String
  timelock : Nat
  recipient_pubkey : String
  refund_pubkey : String
  amount : String
  network : ZcashNetwork
  state : HTLCState
  vout : Option Nat
  script_hex : String
  redeem_script_hex : String
  signed_redeem_tx : Option String
  recipient_address : Option String
deriving DecidableEq, Repr

namespace Database

/-- create_htlc (operations.rs line 18): insert a row; a duplicate id
violates the primary key and fails without changing the table. -/
def create_htlc (hs : List HtlcRow) (r : HtlcRow) : Option (List HtlcRow) :=
  if hs.any (fun x => x.id = r.id) then none else some (hs ++ [r])

/-- update_htlc_txid (operations.rs lines 90–111): set txid, vout and
state = Locked on every row with the given id, unconditionally. -/
def update_htlc_txid (hs : List HtlcRow) (htlc_id txid : String) (vout : Nat) : List HtlcRow :=
  hs.map (fun r =>
    if r.id = htlc_id then
      { r with txid := some txid, vout := some vout, state := HTLCState.locked }
    else r)

/-- update_htlc_state (operations.rs lines 113–124): set the state column
to the argument on every row with the given id, with no guard on the
current state. -/
def update_htlc_state (hs : List HtlcRow) (htlc_id : String) (state : HTLCState) : List HtlcRow :=
  hs.map (fun r => if r.id = htlc_id then { r with state := state } else r)

/-- update_htlc_secret (operations.rs line 126). -/
def update_htlc_secret (hs : List HtlcRow) (htlc_id secret : String) : List HtlcRow :=
  hs.map (fun r => if r.id = htlc_id then { r with secret := some secret } else r)

/-- update_htlc_recipient (operations.rs line 478). -/
def update_htlc_recipient (hs : List HtlcRow) (htlc_id addr : String) : List HtlcRow :=
  hs.map (fun r => if r.id = htlc_id then { r with recipient_address := some addr } else r)

/-- store_signed_redeem_tx (operations.rs line 493). -/
def store_signed_redeem_tx (hs : List HtlcRow) (htlc_id hex : String) : List HtlcRow :=
  hs.map (fun r => if r.id = htlc_id then { r with signed_redeem_tx := some hex } else r)

end Database

/-- The store operations that touch the zcash_htlcs table, as a syntax of
sequences for the state-machine claims. -/
inductive StoreOp
  | createHtlc (r : HtlcRow)
  | updateTxid (htlc_id txid : String) (vout : Nat)
  | updateState (htlc_id : String) (state : HTLCState)
  | updateSecret (htlc_id secret : String)
  | updateRecipient (htlc_id addr : String)
  | storeSignedRedeemTx (htlc_id hex : String)
deriving DecidableEq, Repr

/-- Apply one store operation; a failing insert leaves the table as it
was. -/
def applyOp (hs : List HtlcRow) : StoreOp → List HtlcRow
  | StoreOp.createHtlc r => (Database.create_htlc hs r).getD hs
  | StoreOp.updateTxid i t v => Database.update_htlc_txid hs i t v
  | StoreOp.updateState i s => Database.update_htlc_state hs i s
  | StoreOp.updateSecret i s => Database.update_htlc_secret hs i s
  | StoreOp.updateRecipient i a => Database.update_htlc_recipient hs i a
  | StoreOp.storeSignedRedeemTx i h => Database.store_signed_redeem_tx hs i h

/-- Apply a sequence of store operations left to right. -/
def applyOps (hs : List HtlcRow) (ops : List StoreOp) : List HtlcRow :=
  ops.foldl applyOp hs

/-- The state of the first row with the given id, as a query returns
it. -/
def stateOf (hs : List HtlcRow) (htlc_id : String) : Option HTLCState :=
  (hs.find? (fun r => r.id = htlc_id)).map (fun r => r.state)

/-! ## Operation rows and the two-table database -/

/-- HTLCOperationType. -/
inductive HTLCOperationType
  | create
  | redeem
  | refund
deriving DecidableEq, Repr

/-- OperationStatus. -/
inductive OperationStatus
  | pending
  | signed
  | broadcast
  | confirmed
  | failed
deriving DecidableEq, Repr

/-- An htlc_operations row (timestamps and block_height omitted). -/
structure OpRow where
  id : String
  htlc_id : String
  op_type : HTLCOperationType
  txid : Option String
  raw_tx_hex : Option String
  signed_tx_hex : Option String
  status : OperationStatus
  error_message : Option String
deriving DecidableEq, Repr

/-- The two tables the coordinator writes. -/
structure DB where
  htlcs : List HtlcRow
  ops : List OpRow
deriving DecidableEq, Repr

/-- create_operation: insert an operation row, failing on a duplicate
id. -/
def DB.create_operation (db : DB) (op : OpRow) : Option DB :=
  if db.ops.any (fun x => x.id = op.id) then none
  else some { db with ops := db.ops ++ [op] }

/-- update_operation_broadcast: set txid and status = Broadcast on every
operation row with the given id. -/
def DB.update_operation_broadcast (db : DB) (operation_id txid : String) : DB :=
  { db with ops := db.ops.map (fun o =>
      if o.id = operation_id then
        { o with txid := some txid, status := OperationStatus.broadcast }
      else o) }

/-- update_operation_failed: set status = Failed with the error message.
Defined in operations.rs lines 256–275; no code path of the coordinator or
the relayer ever calls it. -/
def DB.update_operation_failed (db : DB) (operation_id error : String) : DB :=
  { db with ops := db.ops.map (fun o =>
      if o.id = operation_id then
        { o with status := OperationStatus.failed, error_message := some error }
      else o) }

/-- The status of the first operation row with the given id. -/
def opStatusOf (db : DB) (operation_id : String) : Option OperationStatus :=
  (db.ops.find? (fun o => o.id = operation_id)).map (fun o => o.status)

/-! ## Coordinator control flow (lib.rs)

The coordinator's externals — ECDSA signing, uuid generation, consensus
serialization and the node RPC — are supplied as oracle values so that
each run of the model corresponds to one run of the async code with those
outcomes. Every database write, guard, and early return follows lib.rs in
order. The Bool in each result records whether send_raw_transaction was
invoked. -/

/-- HTLCClientError (only the variants the modelled paths can produce). -/
inductive ClientError
  | databaseError
  | rpcError
  | txBuilderError (e : TxBuilderError)
  | signerError
  | invalidSecret
  | htlcNotLocked
  | invalidScript
  | timelockNotExpired (current required : Nat)
deriving DecidableEq, Repr

/-- Replace the `i`-th input's script_sig; the index is always in range
where the coordinator uses it (the builders return exactly one input). -/
def setScriptSigIn : List TxIn → Nat → List Nat → List TxIn
  | [], _, _ => []
  | inp :: rest, 0, ssig => { inp with script_sig := ssig } :: rest
  | inp :: rest, i + 1, ssig => inp :: setScriptSigIn rest i ssig

/-- Replace input `i`'s script_sig in a transaction. -/
def setScriptSig (tx : Transaction) (i : Nat) (ssig : List Nat) : Transaction :=
  { tx with input := setScriptSigIn tx.input i ssig }

/-- External outcomes for one redeem_htlc run. -/
structure RedeemOracle where
  signature : Option (List Nat)
  broadcast : Option String
  opId : String
  serialize : Transaction → String

/-- redeem_htlc (lib.rs lines 171–248): load the row, check the secret,
require non-null txid and vout (the state column is never read), decode
the redeem script, build and sign the redeem transaction, insert a Signed
operation row, broadcast, and on success set state = Redeemed, store the
secret and mark the operation Broadcast. -/
def redeem_htlc (pa : AmountParser) (network : ZcashNetwork) (db : DB) (orc : RedeemOracle)
    (htlc_id secret recipient_address : String) :
    Except ClientError String × DB × Bool :=
  match db.htlcs.find? (fun r => r.id = htlc_id) with
  | none => (Except.error ClientError.databaseError, db, false)
  | some htlc =>
    if verify_secret secret htlc.hash_lock = false then
      (Except.error ClientError.invalidSecret, db, false)
    else
      match htlc.txid, htlc.vout with
      | none, _ => (Except.error ClientError.htlcNotLocked, db, false)
      | some _, none => (Except.error ClientError.htlcNotLocked, db, false)
      | some txid, some vout =>
        match hexDecode htlc.redeem_script_hex with
        | none => (Except.error ClientError.invalidScript, db, false)
        | some redeem_script =>
          match build_redeem_tx pa network txid vout htlc.amount secret redeem_script
              recipient_address with
          | Except.error e => (Except.error (ClientError.txBuilderError e), db, false)
          | Except.ok tx =>
            match orc.signature with
            | none => (Except.error ClientError.signerError, db, false)
            | some sig =>
              match sign_htlc_redeem_scriptSig sig secret redeem_script with
              | Except.error _ => (Except.error ClientError.signerError, db, false)
              | Except.ok ssig =>
                let signed_tx := setScriptSig tx 0 ssig
                let tx_hex := orc.serialize signed_tx
                let operation : OpRow :=
                  ⟨orc.opId, htlc_id, HTLCOperationType.redeem, none,
                   some tx_hex, some tx_hex, OperationStatus.signed, none⟩
                match db.create_operation operation with
                | none => (Except.error ClientError.databaseError, db, false)
                | some db1 =>
                  match orc.broadcast with
                  | none => (Except.error ClientError.rpcError, db1, true)
                  | some redeem_txid =>
                    let db2 := { db1 with
                      htlcs := Database.update_htlc_state db1.htlcs htlc_id HTLCState.redeemed }
                    let db3 := { db2 with
                      htlcs := Database.update_htlc_secret db2.htlcs htlc_id secret }
                    let db4 := db3.update_operation_broadcast orc.opId redeem_txid
                    (Except.ok redeem_txid, db4, true)

/-- External outcomes for one refund_htlc run. -/
structure RefundOracle where
  current_block : Option Nat
  signature : Option (List Nat)
  broadcast : Option String
  opId : String
  serialize : Transaction → String

/-- refund_htlc (lib.rs lines 251–324): load the row, require non-null
txid and vout (the state column is never read), require
current_block ≥ timelock, decode the script, build and sign the refund
transaction, insert a Signed operation row, broadcast, and on success set
state = Refunded and mark the operation Broadcast. -/
def refund_htlc (pa : AmountParser) (network : ZcashNetwork) (db : DB) (orc : RefundOracle)
    (htlc_id refund_address : String) :
    Except ClientError String × DB × Bool :=
  match db.htlcs.find? (fun r => r.id = htlc_id) with
  | none => (Except.error ClientError.databaseError, db, false)
  | some htlc =>
    match htlc.txid, htlc.vout with
    | none, _ => (Except.error ClientError.htlcNotLocked, db, false)
    | some _, none => (Except.error ClientError.htlcNotLocked, db, false)
    | some txid, some vout =>
      match orc.current_block with
      | none => (Except.error ClientError.rpcError, db, false)
      | some current_block =>
        if current_block < htlc.timelock then
          (Except.error (ClientError.timelockNotExpired current_block htlc.timelock), db, false)
        else
          match hexDecode htlc.redeem_script_hex with
          | none => (Except.error ClientError.invalidScript, db, false)
          | some redeem_script =>
            match build_refund_tx pa network txid vout htlc.amount htlc.timelock redeem_script
                refund_address with
            | Except.error e => (Except.error (ClientError.txBuilderError e), db, false)
            | Except.ok tx =>
              match orc.signature with
              | none => (Except.error ClientError.signerError, db, false)
              | some sig =>
                let ssig := sign_htlc_refund_scriptSig sig redeem_script
                let signed_tx := setScriptSig tx 0 ssig
                let tx_hex := orc.serialize signed_tx
                let operation : OpRow :=
                  ⟨orc.opId, htlc_id, HTLCOperationType.refund, none,
                   some tx_hex, some tx_hex, OperationStatus.signed, none⟩
                match db.create_operation operation with
                | none => (Except.error ClientError.databaseError, db, false)
                | some db1 =>
                  match orc.broadcast with
                  | none => (Except.error ClientError.rpcError, db1, true)
                  | some refund_txid =>
                    let db2 := { db1 with
                      htlcs := Database.update_htlc_state db1.htlcs htlc_id HTLCState.refunded }
                    let db3 := db2.update_operation_broadcast orc.opId refund_txid
                    (Except.ok refund_txid, db3, true)

/-- The result create_htlc returns on success. -/
structure CreationResult where
  htlc_id : String
  txid : String
  p2sh_address : String
  redeem_script : String
deriving DecidableEq, Repr

/-- External outcomes for one create_htlc run: the generated row and
operation uuids, one (signature, pubkey) pair per funding input, the
serializer, and the broadcast outcome. -/
structure CreateOracle where
  htlcId : String
  opId : String
  keysOk : Bool
  sigs : List (List Nat × List Nat)
  serialize : Transaction → String
  broadcast : Option String

/-- sign_htlc_creation (signer.rs lines 22–48): require the three input
collections to share cardinality, then give each input the script_sig
push(sig) push(pubkey). Key parsing and ECDSA are the oracle's `keysOk`
and `sigs`. -/
def sign_htlc_creation (tx : Transaction) (input_scripts : List (List Nat))
    (private_keys : List String) (keysOk : Bool) (sigs : List (List Nat × List Nat)) :
    Except ClientError Transaction :=
  if tx.input.length ≠ input_scripts.length ∨ tx.input.length ≠ private_keys.length then
    Except.error ClientError.signerError
  else if keysOk = false then Except.error ClientError.signerError
  else
    let signedInputs := tx.input.zipWith
      (fun inp sp => { inp with script_sig := pushSlice sp.1 ++ pushSlice sp.2 }) sigs
    Except.ok { tx with input := signedInputs }

/-- create_htlc (lib.rs lines 75–168): build and sign the funding
transaction, insert the HTLC row in state Pending with no txid/vout,
insert a Create operation row with status Signed, then broadcast; on
success set (txid, vout = 0, state = Locked) on the row and Broadcast on
the operation. A broadcast failure returns the error with both rows
exactly as inserted. -/
def create_htlc (pa : AmountParser) (network : ZcashNetwork) (db : DB) (orc : CreateOracle)
    (params : HTLCParams) (funding_utxos : List UTXO) (change_address : String)
    (funding_privkeys : List String) :
    Except ClientError CreationResult × DB × Bool :=
  match build_htlc_tx pa network params funding_utxos change_address with
  | Except.error e => (Except.error (ClientError.txBuilderError e), db, false)
  | Except.ok (tx, redeem_script) =>
    let p2sh_address := script_to_p2sh_address network redeem_script
    match mapOption (fun u => hexDecode u.script_pubkey) funding_utxos with
    | none => (Except.error ClientError.invalidScript, db, false)
    | some input_scripts =>
      match sign_htlc_creation tx input_scripts funding_privkeys orc.keysOk orc.sigs with
      | Except.error e => (Except.error e, db, false)
      | Except.ok signed_tx =>
        let tx_hex := orc.serialize signed_tx
        let htlc : HtlcRow :=
          ⟨orc.htlcId, none, p2sh_address, params.hash_lock, none, params.timelock,
           params.recipient_pubkey, params.refund_pubkey, params.amount, network,
           HTLCState.pending, none, hexEncode redeem_script, hexEncode redeem_script,
           none, none⟩
        match Database.create_htlc db.htlcs htlc with
        | none => (Except.error ClientError.databaseError, db, false)
        | some hs1 =>
          let db1 : DB := { db with htlcs := hs1 }
          let operation : OpRow :=
            ⟨orc.opId, orc.htlcId, HTLCOperationType.create, none,
             some tx_hex, some tx_hex, OperationStatus.signed, none⟩
          match db1.create_operation operation with
          | none => (Except.error ClientError.databaseError, db1, false)
          | some db2 =>
            match orc.broadcast with
            | none => (Except.error ClientError.rpcError, db2, true)
            | some txid =>
              let db3 : DB := { db2 with
                htlcs := Database.update_htlc_txid db2.htlcs orc.htlcId txid 0 }
              let db4 := db3.update_operation_broadcast orc.opId txid
              (Except.ok ⟨orc.htlcId, txid, p2sh_address, hexEncode redeem_script⟩, db4, true)

/-- One iteration of the relayer's pending-creation loop for one row
(relayer.rs lines 45–92): call create_htlc with parameters rebuilt from
the row; on any error, set that row's state to Failed (the UTXO marking of
the success path touches only the relayer_utxos table and is not
modelled). -/
def process_pending_htlc_creation_step (pa : AmountParser) (network : ZcashNetwork)
    (db : DB) (orc : CreateOracle) (htlc : HtlcRow) (hot_wallet_address : String)
    (hot_wallet_privkeys : List String) (selected_utxos : List UTXO) : DB :=
  match create_htlc pa network db orc
      ⟨htlc.recipient_pubkey, htlc.refund_pubkey, htlc.hash_lock, htlc.timelock, htlc.amount⟩
      selected_utxos hot_wallet_address hot_wallet_privkeys with
  | (Except.ok _, db', _) => db'
  | (Except.error _, db', _) =>
    { db' with htlcs := Database.update_htlc_state db'.htlcs htlc.id HTLCState.failed }

/-! ## verify_signature (signer.rs lines 135–155)

secp256k1's DER parsing, public-key parsing and verification are oracle
functions. The result is an Option: `none` models the Rust panic — on an
empty decoded signature, `sig_bytes[..sig_bytes.len() - 1]` underflows the
index computation and the slice panics before any oracle is consulted. -/

/-- SignerError, as in signer.rs. -/
inductive SignerError
  | invalidPrivateKey
  | invalidPublicKey
  | invalidSignature
  | mismatchedInputs
  | sighashError
  | messageError
  | scriptError
deriving DecidableEq, Repr

/-- verify_signature: hex-decode the signature, strip the final sighash
byte, parse the DER body and the public key, require a 32-byte message,
and ask the curve; `none` is the panic on the empty signature. -/
def verify_signature (from_der : List Nat → Option Unit)
    (pk_from_slice : List Nat → Option Unit)
    (verify_ecdsa : List Nat → List Nat → List Nat → Bool)
    (message : List Nat) (signature pubkey_hex : String) :
    Option (Except SignerError Bool) :=
  match hexDecode signature with
  | none => some (Except.error SignerError.invalidSignature)
  | some sig_bytes =>
    if sig_bytes.length = 0 then none
    else
      match from_der (sig_bytes.take (sig_bytes.length - 1)) with
      | none => some (Except.error SignerError.invalidSignature)
      | some _ =>
        match hexDecode pubkey_hex with
        | none => some (Except.error SignerError.invalidPublicKey)
        | some pubkey_bytes =>
          match pk_from_slice pubkey_bytes with
          | none => some (Except.error SignerError.invalidPublicKey)
          | some _ =>
            if message.length ≠ 32 then some (Except.error SignerError.messageError)
            else some (Except.ok
              (verify_ecdsa message (sig_bytes.take (sig_bytes.length - 1)) pubkey_bytes))

/-! ## Concrete fixtures for witnesses and counterexamples -/

/-- An amount parser recording what parse_amount's f64 pipeline returns on
the two fixture strings: 0.001 and 0.01 ZEC are exactly representable
products, giving 100000 and 1000000 zatoshis. -/
def paDemo : AmountParser := fun s =>
  if s = "0.001" then some 100000
  else if s = "0.01" then some 1000000
  else none

/-- A well-formed 64-hex-character txid string. -/
def demoTxidStr : String := String.mk (List.replicate 64 'a')

/-- The spec's S2 hash lock: lowercase hex of SHA-256(0xdeadbeef). -/
def demoHashLock : String :=
  "5f78c33274e43fa9de5659265c1d917e25c03722dcb0b8d27db8d5feaa813953"

/-- The same hash lock written in uppercase hex. -/
def demoHashLockUpper : String :=
  "5F78C33274E43FA9DE5659265C1D917E25C03722DCB0B8D27DB8D5FEAA813953"

/-- A testnet P2PKH address whose decoded bytes are the testnet P2PKH
version bytes, twenty 0x07 hash bytes, and the four checksum bytes
0x00000000 — which is NOT the correct double-SHA-256 checksum. -/
def demoAddr : String := "tmAMWUnnjjpM7TDb81PykSxGJpThspmCFfM"

/-- A compressed-SEC1-shaped recipient pubkey hex string. -/
def demoPubkeyR : String := String.mk ('0' :: '2' :: List.replicate 64 'a')

/-- A compressed-SEC1-shaped refund pubkey hex string. -/
def demoPubkeyF : String := String.mk ('0' :: '3' :: List.replicate 64 'b')

/-- The spec's S1/S3 parameters with the S2 hash lock and 0.001 ZEC. -/
def demoParams : HTLCParams := ⟨demoPubkeyR, demoPubkeyF, demoHashLock, 100, "0.001"⟩

/-- A 0.01 ZEC funding UTXO. -/
def demoUtxo : UTXO := ⟨demoTxidStr, 0, "0.01", "76a914", 1⟩

/-- Mock signature bytes (DER body followed by the 0x01 sighash byte). -/
def demoSig : List Nat := [0x30, 0x06, 0x02, 0x01, 0x01, 0x02, 0x01, 0x01, 0x01]

/-- Mock serialized compressed pubkey bytes. -/
def demoPubkeyBytes : List Nat := 0x02 :: List.replicate 32 0xaa

/-- A row already in state Redeemed, with its funding txid and vout
recorded. -/
def rowRedeemed : HtlcRow :=
  ⟨"h1", some demoTxidStr, "p2shaddr", demoHashLock, none, 100, demoPubkeyR, demoPubkeyF,
   "0.001", ZcashNetwork.testnet, HTLCState.redeemed, some 0, "51", "51", none, none⟩

/-- A row still Pending, with no txid or vout. -/
def rowPending : HtlcRow :=
  ⟨"h2", none, "p2shaddr", demoHashLock, none, 100, demoPubkeyR, demoPubkeyF,
   "0.001", ZcashNetwork.testnet, HTLCState.pending, none, "51", "51", none, none⟩

/-- A database holding only the Redeemed row. -/
def dbRedeemed : DB := ⟨[rowRedeemed], []⟩

/-- A database holding only the Pending row. -/
def dbPending : DB := ⟨[rowPending], []⟩

/-- A redeem oracle whose signing and broadcast both succeed. -/
def redOrcOK : RedeemOracle := ⟨some demoSig, some demoTxidStr, "op1", fun _ => "hex"⟩

/-- A refund oracle at block 500 whose signing and broadcast both
succeed. -/
def refOrcOK : RefundOracle := ⟨some 500, some demoSig, some demoTxidStr, "op2", fun _ => "hex"⟩

/-- The relayer-side Pending row awaiting funding. -/
def row0 : HtlcRow :=
  ⟨"h0", none, "p2shaddr", demoHashLock, none, 100, demoPubkeyR, demoPubkeyF,
   "0.001", ZcashNetwork.testnet, HTLCState.pending, none, "51", "51", none, none⟩

/-- A database holding only the relayer row. -/
def db0 : DB := ⟨[row0], []⟩

/-- A create oracle with fresh ids and working keys whose broadcast
fails. -/
def createOrcFail : CreateOracle :=
  ⟨"hNew", "opNew", true, [(demoSig, demoPubkeyBytes)], fun _ => "hex", none⟩

/-- The redeem_htlc run on the Redeemed row with the correct secret and
working oracles. -/
def redeemRunTerminal : Except ClientError String × DB × Bool :=
  redeem_htlc paDemo ZcashNetwork.testnet dbRedeemed redOrcOK ("h1") ("deadbeef") demoAddr

/-- The refund_htlc run on the Redeemed row past its timelock. -/
def refundRunTerminal : Except ClientError String × DB × Bool :=
  refund_htlc paDemo ZcashNetwork.testnet dbRedeemed refOrcOK ("h1") demoAddr

/-- The relayer creation step on row h0 with a failing broadcast. -/
def createFailDb : DB :=
  process_pending_htlc_creation_step paDemo ZcashNetwork.testnet db0 createOrcFail row0
    demoAddr ["aa"] [demoUtxo]

deriving instance DecidableEq for Except

/-! ## Theorems for the claims -/

set_option maxRecDepth 40000

set_option maxHeartbeats 1000000

/-- C1: the claim says both spend script_sigs are flat item sequences —
push(sig) push(secret) OP_TRUE push(redeem_script) for redeem and
push(sig) OP_FALSE push(redeem_script) for refund, with no item nested
inside another push. The code instead serializes the branch items and
pushes that whole serialization as a single data item: at the signature
bytes `demoSig`, secret "ab" and redeem script [0x51], the redeem
script_sig is push(push(sig) ++ push(0xab) ++ OP_TRUE) ++
push(redeem_script), which differs from the spec's flat form, and the
refund script_sig likewise nests push(sig) OP_FALSE inside one push. -/
theorem signer_scriptSig_nested :
    sign_htlc_redeem_scriptSig demoSig ("ab") [0x51] =
      Except.ok (pushSlice (pushSlice demoSig ++ pushSlice [0xab] ++ [0x51]) ++
        pushSlice [0x51]) ∧
    sign_htlc_redeem_scriptSig demoSig ("ab") [0x51] ≠
      Except.ok (specRedeemScriptSig demoSig [0xab] [0x51]) ∧
    sign_htlc_refund_scriptSig demoSig [0x51] =
      pushSlice (pushSlice demoSig ++ [0x00]) ++ pushSlice [0x51] ∧
    sign_htlc_refund_scriptSig demoSig [0x51] ≠ specRefundScriptSig demoSig [0x51] := by
  decide

/-- C2: the claim (and the spec's MUST) requires the refund input's
sequence to be strictly below 0xFFFFFFFF; builder.rs line 175 sets
0xFFFFFFFF. At a successful concrete call the lock_time is the timelock
but the single input's sequence is 0xFFFFFFFF, not 0xFFFFFFFE. -/
theorem build_refund_tx_sequence_final :
    (build_refund_tx paDemo ZcashNetwork.testnet demoTxidStr 0 ("0.001") 100 [0x51]
        demoAddr).map
      (fun t => (t.lockTime, t.input.map (fun i => i.sequence))) =
    Except.ok (100, [4294967295]) := by
  decide

/-- C10: the claim says verify_signature returns a value for every input;
with the empty signature string, hex::decode yields an empty byte vector
and `sig_bytes[..sig_bytes.len() - 1]` panics on the index underflow —
modelled as `none` — whatever the secp256k1 oracles and the other
arguments are. -/
theorem verify_signature_empty_panics (from_der : List Nat → Option Unit)
    (pk_from_slice : List Nat → Option Unit)
    (verify_ecdsa : List Nat → List Nat → List Nat → Bool)
    (message : List Nat) (pubkey_hex : String) :
    verify_signature from_der pk_from_slice verify_ecdsa message ("") pubkey_hex = none := rfl

/-- C7 counterexample: the hash lock written in uppercase hex is
case-insensitively equal to the hex of SHA-256(0xdeadbeef), yet
verify_secret rejects it, so the comparison is not case-insensitive. -/
theorem verify_secret_uppercase_rejected :
    asciiLower demoHashLockUpper = hexEncode (sha256 [0xde, 0xad, 0xbe, 0xef]) ∧
    hexDecode ("deadbeef") = some [0xde, 0xad, 0xbe, 0xef] ∧
    verify_secret ("deadbeef") demoHashLockUpper = false := by
  decide

/-- C7 amended: for a hex-valid secret, verify_secret returns true
exactly when the hash lock equals the lowercase hex encoding of the
SHA-256 of the decoded secret, by case-sensitive string equality. -/
theorem verify_secret_iff (s h : String) (bs : List Nat) (hd : hexDecode s = some bs) :
    verify_secret s h = true ↔ hexEncode (sha256 bs) = h := by
  unfold verify_secret
  rw [hd]
  exact decide_eq_true_iff

/-- C7 amended, witness at the spec's S2 inputs. -/
theorem verify_secret_iff_witness :
    hexDecode ("deadbeef") = some [0xde, 0xad, 0xbe, 0xef] ∧
    (verify_secret ("deadbeef") demoHashLock = true ↔
      hexEncode (sha256 [0xde, 0xad, 0xbe, 0xef]) = demoHashLock) :=
  ⟨by decide, verify_secret_iff ("deadbeef") demoHashLock [0xde, 0xad, 0xbe, 0xef] (by decide)⟩

/-- C8 counterexample: demoAddr decodes to the testnet P2PKH version
bytes, twenty 0x07 bytes and the checksum field 0x00000000; the first
four bytes of the double SHA-256 of the preceding 22 bytes are not
0x00000000, yet address_to_script_pubkey accepts the address — the
checksum is never verified. -/
theorem address_checksum_not_verified :
    b58decode demoAddr =
      some ([0x1d, 0x25] ++ List.replicate 20 0x07 ++ [0x00, 0x00, 0x00, 0x00]) ∧
    (sha256 (sha256 ([0x1d, 0x25] ++ List.replicate 20 0x07))).take 4 ≠
      [0x00, 0x00, 0x00, 0x00] ∧
    address_to_script_pubkey ZcashNetwork.testnet demoAddr =
      Except.ok ([0x76, 0xa9] ++ pushSlice (List.replicate 20 0x07) ++ [0x88, 0xac]) := by
  decide

/-- C8 amended: address_to_script_pubkey is fully determined by the
base58 decode, the ≥ 26 length check and the two version bytes — a short
or undecodable address fails InvalidAddress, the P2PKH prefix yields
OP_DUP OP_HASH160 push(hash) OP_EQUALVERIFY OP_CHECKSIG, the P2SH prefix
yields OP_HASH160 push(hash) OP_EQUAL, and any other prefix fails
UnsupportedAddressType; no condition on the checksum bytes appears. -/
theorem address_to_script_pubkey_cases (network : ZcashNetwork) (address : String) :
    address_to_script_pubkey network address =
      match b58decode address with
      | none => Except.error TxBuilderError.invalidAddress
      | some decoded =>
        if decoded.length < 26 then Except.error TxBuilderError.invalidAddress
        else if decoded.take 2 = network.p2pkhVersionBytes then
          Except.ok ([0x76, 0xa9] ++ pushSlice ((decoded.drop 2).take 20) ++ [0x88, 0xac])
        else if decoded.take 2 = network.p2shVersionBytes then
          Except.ok ([0xa9] ++ pushSlice ((decoded.drop 2).take 20) ++ [0x87])
        else Except.error TxBuilderError.unsupportedAddressType := by
  unfold address_to_script_pubkey
  cases hb : b58decode address with
  | none => rfl
  | some decoded =>
    simp only [liftOpt, bind, Except.bind, pure, Except.pure, throw, throwThe,
      MonadExceptOf.throw]

/-- find? over an id-preserving row map is the map of find?. -/
theorem find_map_id_pres (f : HtlcRow → HtlcRow) (hf : ∀ r, (f r).id = r.id)
    (hs : List HtlcRow) (q : String) :
    (hs.map f).find? (fun r => r.id = q) = (hs.find? (fun r => r.id = q)).map f := by
  induction hs with
  | nil => rfl
  | cons r rest ih =>
    by_cases h : r.id = q
    · simp [List.find?, hf, h]
    · simp [List.find?, hf, h, ih]

/-- How update_htlc_txid changes the observable state column. -/
theorem stateOf_update_htlc_txid (hs : List HtlcRow) (i t : String) (v : Nat) (q : String) :
    stateOf (Database.update_htlc_txid hs i t v) q =
      if q = i then (stateOf hs q).map (fun _ => HTLCState.locked) else stateOf hs q := by
  unfold stateOf Database.update_htlc_txid
  rw [find_map_id_pres _ (fun r => by split <;> rfl)]
  cases hfind : hs.find? (fun r => r.id = q) with
  | none => simp
  | some r =>
    have hid : r.id = q := by simpa using List.find?_some hfind
    by_cases hq : q = i
    · subst hq; simp [hid]
    · simp [hid, hq]

/-- How update_htlc_state changes the observable state column. -/
theorem stateOf_update_htlc_state (hs : List HtlcRow) (i : String) (st : HTLCState)
    (q : String) :
    stateOf (Database.update_htlc_state hs i st) q =
      if q = i then (stateOf hs q).map (fun _ => st) else stateOf hs q := by
  unfold stateOf Database.update_htlc_state
  rw [find_map_id_pres _ (fun r => by split <;> rfl)]
  cases hfind : hs.find? (fun r => r.id = q) with
  | none => simp
  | some r =>
    have hid : r.id = q := by simpa using List.find?_some hfind
    by_cases hq : q = i
    · subst hq; simp [hid]
    · simp [hid, hq]

/-- update_htlc_secret leaves every state column unchanged. -/
theorem stateOf_update_htlc_secret (hs : List HtlcRow) (i s : String) (q : String) :
    stateOf (Database.update_htlc_secret hs i s) q = stateOf hs q := by
  unfold stateOf Database.update_htlc_secret
  rw [find_map_id_pres _ (fun r => by split <;> rfl)]
  cases hfind : hs.find? (fun r => r.id = q) with
  | none => simp
  | some r => simp only [Option.map]; split <;> rfl

/-- update_htlc_recipient leaves every state column unchanged. -/
theorem stateOf_update_htlc_recipient (hs : List HtlcRow) (i a : String) (q : String) :
    stateOf (Database.update_htlc_recipient hs i a) q = stateOf hs q := by
  unfold stateOf Database.update_htlc_recipient
  rw [find_map_id_pres _ (fun r => by split <;> rfl)]
  cases hfind : hs.find? (fun r => r.id = q) with
  | none => simp
  | some r => simp only [Option.map]; split <;> rfl

/-- store_signed_redeem_tx leaves every state column unchanged. -/
theorem stateOf_store_signed_redeem_tx (hs : List HtlcRow) (i x : String) (q : String) :
    stateOf (Database.store_signed_redeem_tx hs i x) q = stateOf hs q := by
  unfold stateOf Database.store_signed_redeem_tx
  rw [find_map_id_pres _ (fun r => by split <;> rfl)]
  cases hfind : hs.find? (fun r => r.id = q) with
  | none => simp
  | some r => simp only [Option.map]; split <;> rfl

/-- An insert never changes the state an existing id reports, and a fresh
id reports the inserted state. -/
theorem stateOf_create_htlc (hs : List HtlcRow) (r : HtlcRow) (q : String) :
    stateOf (applyOp hs (StoreOp.createHtlc r)) q =
      if hs.any (fun x => x.id = r.id) then stateOf hs q
      else if (stateOf hs q).isSome then stateOf hs q
      else if r.id = q then some r.state else none := by
  unfold applyOp Database.create_htlc
  cases hd : hs.any (fun x => x.id = r.id) with
  | true => simp [hd]
  | false =>
    simp only [hd, Bool.false_eq_true, if_false, Option.getD_some]
    unfold stateOf
    rw [List.find?_append]
    cases hfind : hs.find? (fun x => x.id = q) with
    | none =>
      simp only [Option.orElse, Option.map, Option.isSome, Bool.false_eq_true, if_false,
        List.find?]
      by_cases hr : r.id = q
      · simp [hr]
      · simp [hr]
    | some x => simp [Option.orElse, Option.map, Option.isSome]

/-- C3 counterexample: from a Redeemed row, the single store operation
update_htlc_txid moves the row to Locked, and update_htlc_state can set
Locked as well — so a sequence of store operations does exit
{Redeemed, Refunded}, and update_htlc_txid is not the only operation that
sets Locked. -/
theorem store_ops_exit_terminal :
    stateOf [rowRedeemed] ("h1") = some HTLCState.redeemed ∧
    stateOf (applyOps [rowRedeemed] [StoreOp.updateTxid ("h1") ("ff") 0]) ("h1") =
      some HTLCState.locked ∧
    stateOf (applyOps [rowRedeemed] [StoreOp.updateState ("h1") HTLCState.locked]) ("h1") =
      some HTLCState.locked := by
  decide

/-- C3 amended: the store operations guard nothing. update_htlc_txid sets
the state of the addressed id to Locked whatever it was (so it can leave
Redeemed or Refunded), update_htlc_state overwrites it with its argument
(so it can both leave a terminal state and set Locked), the three other
update operations never touch the state column, and an insert only
affects an id that was absent. -/
theorem store_state_unguarded :
    (∀ (hs : List HtlcRow) (i t : String) (v : Nat) (q : String),
      stateOf (applyOp hs (StoreOp.updateTxid i t v)) q =
        if q = i then (stateOf hs q).map (fun _ => HTLCState.locked) else stateOf hs q) ∧
    (∀ (hs : List HtlcRow) (i : String) (st : HTLCState) (q : String),
      stateOf (applyOp hs (StoreOp.updateState i st)) q =
        if q = i then (stateOf hs q).map (fun _ => st) else stateOf hs q) ∧
    (∀ (hs : List HtlcRow) (i s : String) (q : String),
      stateOf (applyOp hs (StoreOp.updateSecret i s)) q = stateOf hs q) ∧
    (∀ (hs : List HtlcRow) (i a : String) (q : String),
      stateOf (applyOp hs (StoreOp.updateRecipient i a)) q = stateOf hs q) ∧
    (∀ (hs : List HtlcRow) (i x : String) (q : String),
      stateOf (applyOp hs (StoreOp.storeSignedRedeemTx i x)) q = stateOf hs q) ∧
    (∀ (hs : List HtlcRow) (r : HtlcRow) (q : String),
      stateOf (applyOp hs (StoreOp.createHtlc r)) q =
        if hs.any (fun x => x.id = r.id) then stateOf hs q
        else if (stateOf hs q).isSome then stateOf hs q
        else if r.id = q then some r.state else none) :=
  ⟨fun hs i t v q => stateOf_update_htlc_txid hs i t v q,
   fun hs i st q => stateOf_update_htlc_state hs i st q,
   fun hs i s q => stateOf_update_htlc_secret hs i s q,
   fun hs i a q => stateOf_update_htlc_recipient hs i a q,
   fun hs i x q => stateOf_store_signed_redeem_tx hs i x q,
   fun hs r q => stateOf_create_htlc hs r q⟩


/-- mapExcept preserves length on success. -/
theorem mapExcept_ok_length (f : α → Except ε β) (l : List α) (l' : List β)
    (h : mapExcept f l = Except.ok l') : l'.length = l.length := by
  induction l generalizing l' with
  | nil => cases h; rfl
  | cons a as ih =>
    unfold mapExcept at h
    cases hf : f a with
    | error e => rw [hf] at h; cases h
    | ok b =>
      rw [hf] at h
      cases hm : mapExcept f as with
      | error e => rw [hm] at h; cases h
      | ok bs => rw [hm] at h; cases h; simp [ih bs hm]

/-- C4 -/
theorem build_htlc_tx_shape (pa : AmountParser) (network : ZcashNetwork) (params : HTLCParams)
    (utxos : List UTXO) (change_address : String) (t : Transaction) (rs : List Nat)
    (amount_sat : Nat) (amounts : List Nat)
    (hpa : pa params.amount = some amount_sat)
    (hamounts : mapExcept (fun u => liftOpt (pa u.amount) TxBuilderError.invalidAmount) utxos
      = Except.ok amounts)
    (h : build_htlc_tx pa network params utxos change_address = Except.ok (t, rs)) :
    t.version = 4 ∧ t.lockTime = 0 ∧
    (let fee := estimate_tx_size utxos.length 2 * DEFAULT_FEE_RATE / 1000
     let change := amounts.sum - amount_sat - fee
     if DUST_THRESHOLD < change then
       ∃ cs, address_to_script_pubkey network change_address = Except.ok cs ∧
         t.output = [TxOut.mk amount_sat (p2sh_script_pubkey rs), TxOut.mk change cs]
     else t.output = [TxOut.mk amount_sat (p2sh_script_pubkey rs)]) := by
  unfold build_htlc_tx at h
  rw [hpa, hamounts] at h
  simp only [liftOpt, bind, Except.bind, pure, Except.pure, throw, throwThe,
    MonadExceptOf.throw, Except.map, Except.mapError] at h
  split at h
  · cases h
  · split at h
    · cases h
    · rename_i redeem_script hscript
      split at h
      · cases h
      · rename_i inputs hinputs
        have hlen : inputs.length = utxos.length := mapExcept_ok_length _ _ _ hinputs
        rw [hlen] at h
        split at h
        · cases h
        · split at h
          · rename_i hdust
            split at h
            · cases h
            · rename_i cs hcs
              cases h
              refine ⟨rfl, rfl, ?_⟩
              simp only
              rw [if_pos hdust]
              exact ⟨cs, hcs, rfl⟩
          · rename_i hdust
            cases h
            refine ⟨rfl, rfl, ?_⟩
            simp only
            rw [if_neg hdust]
            trivial

/-- C4 witness: the spec's S3 scenario — one 0.01 ZEC input funding a
0.001 ZEC HTLC — succeeds with the HTLC output at index 0 and a change
output, as the shape theorem describes. -/
theorem build_htlc_tx_shape_witness :
    ∃ t rs, build_htlc_tx paDemo ZcashNetwork.testnet demoParams [demoUtxo] demoAddr =
        Except.ok (t, rs) ∧
      (t.version = 4 ∧ t.lockTime = 0 ∧
       (let fee := estimate_tx_size ([demoUtxo] : List UTXO).length 2 * DEFAULT_FEE_RATE / 1000
        let change := ([1000000] : List Nat).sum - 100000 - fee
        if DUST_THRESHOLD < change then
          ∃ cs, address_to_script_pubkey ZcashNetwork.testnet demoAddr = Except.ok cs ∧
            t.output = [TxOut.mk 100000 (p2sh_script_pubkey rs), TxOut.mk change cs]
        else t.output = [TxOut.mk 100000 (p2sh_script_pubkey rs)])) := by
  cases hE : build_htlc_tx paDemo ZcashNetwork.testnet demoParams [demoUtxo] demoAddr with
  | error e =>
    have hok : exceptIsOk (build_htlc_tx paDemo ZcashNetwork.testnet demoParams [demoUtxo]
        demoAddr) = true := by decide
    rw [hE] at hok
    simp [exceptIsOk] at hok
  | ok pr =>
    exact ⟨pr.1, pr.2, rfl,
      build_htlc_tx_shape paDemo ZcashNetwork.testnet demoParams [demoUtxo] demoAddr
        pr.1 pr.2 100000 [1000000] (by decide) (by decide) hE⟩

/-- C5 counterexample: the stored row is Redeemed, not Locked, yet both
redeem_htlc (with the correct secret) and refund_htlc (past the timelock)
run all the way to a successful broadcast — the state column is never
consulted, so neither returns an error. -/
theorem redeem_refund_state_not_checked :
    rowRedeemed.state = HTLCState.redeemed ∧
    redeemRunTerminal.2.2 = true ∧ exceptIsOk redeemRunTerminal.1 = true ∧
    refundRunTerminal.2.2 = true ∧ exceptIsOk refundRunTerminal.1 = true := by
  decide

/-- C5 amended: the guard both flows actually apply is nullness of txid
and vout — when either is missing, redeem_htlc and refund_htlc return an
error without broadcasting and leave the database unchanged, whatever the
row's state. -/
theorem redeem_refund_require_txid_vout (pa : AmountParser) (network : ZcashNetwork)
    (db : DB) (orc : RedeemOracle) (orc' : RefundOracle)
    (htlc_id secret recipient_address refund_address : String) (r : HtlcRow)
    (hfind : db.htlcs.find? (fun x => x.id = htlc_id) = some r)
    (hnull : r.txid = none ∨ r.vout = none) :
    (∃ e, redeem_htlc pa network db orc htlc_id secret recipient_address =
      (Except.error e, db, false)) ∧
    (∃ e, refund_htlc pa network db orc' htlc_id refund_address =
      (Except.error e, db, false)) := by
  constructor
  · unfold redeem_htlc
    rw [hfind]
    cases hv : verify_secret secret r.hash_lock
    · exact ⟨ClientError.invalidSecret, by simp [hv]⟩
    · rcases hnull with h1 | h1
      · exact ⟨ClientError.htlcNotLocked, by simp [hv, h1]⟩
      · refine ⟨ClientError.htlcNotLocked, ?_⟩
        cases h2 : r.txid with
        | none => simp [hv, h1, h2]
        | some x => simp [hv, h1, h2]
  · unfold refund_htlc
    rw [hfind]
    rcases hnull with h1 | h1
    · exact ⟨ClientError.htlcNotLocked, by simp [h1]⟩
    · refine ⟨ClientError.htlcNotLocked, ?_⟩
      cases h2 : r.txid with
      | none => simp [h1, h2]
      | some x => simp [h1, h2]

/-- C5 amended, witness at the Pending row with no txid. -/
theorem redeem_refund_require_txid_vout_witness :
    (dbPending.htlcs.find? (fun x => x.id = ("h2" : String)) = some rowPending ∧
      rowPending.txid = none) ∧
    (∃ e, redeem_htlc paDemo ZcashNetwork.testnet dbPending redOrcOK ("h2") ("deadbeef")
        demoAddr = (Except.error e, dbPending, false)) ∧
    (∃ e, refund_htlc paDemo ZcashNetwork.testnet dbPending refOrcOK ("h2") demoAddr =
        (Except.error e, dbPending, false)) :=
  ⟨⟨by decide, by decide⟩,
   redeem_refund_require_txid_vout paDemo ZcashNetwork.testnet dbPending redOrcOK refOrcOK
     ("h2") ("deadbeef") demoAddr demoAddr rowPending (by decide) (Or.inl (by decide))⟩

/-- find? misses every element when any misses. -/
theorem find?_none_of_any_false (p : α → Bool) (l : List α) (h : l.any p = false) :
    l.find? p = none := by
  induction l with
  | nil => rfl
  | cons a as ih =>
    simp only [List.any_cons, Bool.or_eq_false_iff] at h
    simp [List.find?, h.1, ih h.2]

/-- C6 counterexample: the relayer processes row h0, the broadcast fails,
and afterwards the Create operation's status is Signed, not Failed, while
the coordinator-inserted row hNew is still Pending; only the relayer's own
row h0 is marked Failed. -/
theorem create_failure_operation_stays_signed :
    opStatusOf createFailDb ("opNew") = some OperationStatus.signed ∧
    stateOf createFailDb.htlcs ("hNew") = some HTLCState.pending ∧
    stateOf createFailDb.htlcs ("h0") = some HTLCState.failed := by
  decide

/-- C6 amended: when create_htlc fails after attempting the broadcast,
the error is the RPC error, the Create operation it inserted is left with
status Signed (update_operation_failed is never called), the inserted
HTLC row is left Pending, and the relayer's caller then marks the row it
was processing — not the inserted one — as Failed. -/
theorem create_broadcast_failure_leaves_signed (pa : AmountParser) (network : ZcashNetwork)
    (db : DB) (orc : CreateOracle) (row : HtlcRow) (utxos : List UTXO)
    (change_address : String) (privkeys : List String) (e : ClientError) (db' : DB)
    (h : create_htlc pa network db orc
      ⟨row.recipient_pubkey, row.refund_pubkey, row.hash_lock, row.timelock, row.amount⟩
      utxos change_address privkeys = (Except.error e, db', true)) :
    e = ClientError.rpcError ∧
    opStatusOf db' orc.opId = some OperationStatus.signed ∧
    stateOf db'.htlcs orc.htlcId = some HTLCState.pending ∧
    process_pending_htlc_creation_step pa network db orc row change_address privkeys utxos =
      { db' with htlcs := Database.update_htlc_state db'.htlcs row.id HTLCState.failed } := by
  have hstep : process_pending_htlc_creation_step pa network db orc row change_address
      privkeys utxos =
      { db' with htlcs := Database.update_htlc_state db'.htlcs row.id HTLCState.failed } := by
    unfold process_pending_htlc_creation_step
    rw [h]
  unfold create_htlc at h
  split at h
  · simp [Prod.ext_iff] at h
  · rename_i tx redeem_script heq
    split at h
    · simp [Prod.ext_iff] at h
    · rename_i input_scripts hscripts
      split at h
      · simp [Prod.ext_iff] at h
      · rename_i signed_tx hsign
        split at h
        · -- broadcast failed: the only branch compatible with (error, _, true)
          dsimp only at h
          split at h
          · simp [Prod.ext_iff] at h
          · rename_i hs1 hins
            split at h
            · simp [Prod.ext_iff] at h
            · rename_i db2 hop
              rw [Prod.ext_iff, Prod.ext_iff] at h
              obtain ⟨he, hdb, -⟩ := h
              cases he
              cases hdb
              unfold DB.create_operation at hop
              split at hop
              · cases hop
              · rename_i hnodup
                cases hop
                unfold Database.create_htlc at hins
                split at hins
                · cases hins
                · rename_i hnodup2
                  cases hins
                  refine ⟨rfl, ?_, ?_, hstep⟩
                  · unfold opStatusOf
                    simp only
                    rw [List.find?_append,
                      find?_none_of_any_false _ _ (by simpa using hnodup)]
                    simp [List.find?]
                  · unfold stateOf
                    simp only
                    rw [List.find?_append,
                      find?_none_of_any_false _ _ (by simpa using hnodup2)]
                    simp [List.find?]
        · -- broadcast succeeded: every leaf contradicts (error, _, true)
          dsimp only at h
          split at h
          · simp [Prod.ext_iff] at h
          · split at h
            · simp [Prod.ext_iff] at h
            · simp [Prod.ext_iff] at h

/-- C6 amended, witness at the concrete failing-broadcast run. -/
theorem create_broadcast_failure_leaves_signed_witness :
    ∃ db', create_htlc paDemo ZcashNetwork.testnet db0 createOrcFail
        ⟨row0.recipient_pubkey, row0.refund_pubkey, row0.hash_lock, row0.timelock, row0.amount⟩
        [demoUtxo] demoAddr ["aa"] = (Except.error ClientError.rpcError, db', true) ∧
      (ClientError.rpcError = ClientError.rpcError ∧
       opStatusOf db' ("opNew") = some OperationStatus.signed ∧
       stateOf db'.htlcs ("hNew") = some HTLCState.pending ∧
       process_pending_htlc_creation_step paDemo ZcashNetwork.testnet db0 createOrcFail row0
           demoAddr ["aa"] [demoUtxo] =
         { db' with htlcs := Database.update_htlc_state db'.htlcs row0.id HTLCState.failed }) := by
  have h1 : (create_htlc paDemo ZcashNetwork.testnet db0 createOrcFail
      ⟨row0.recipient_pubkey, row0.refund_pubkey, row0.hash_lock, row0.timelock, row0.amount⟩
      [demoUtxo] demoAddr ["aa"]).1 = Except.error ClientError.rpcError := by decide
  have h3 : (create_htlc paDemo ZcashNetwork.testnet db0 createOrcFail
      ⟨row0.recipient_pubkey, row0.refund_pubkey, row0.hash_lock, row0.timelock, row0.amount⟩
      [demoUtxo] demoAddr ["aa"]).2.2 = true := by decide
  refine ⟨(create_htlc paDemo ZcashNetwork.testnet db0 createOrcFail
      ⟨row0.recipient_pubkey, row0.refund_pubkey, row0.hash_lock, row0.timelock, row0.amount⟩
      [demoUtxo] demoAddr ["aa"]).2.1, ?_, ?_⟩
  · exact Prod.ext h1 (Prod.ext rfl h3)
  · exact create_broadcast_failure_leaves_signed paDemo ZcashNetwork.testnet db0 createOrcFail
      row0 [demoUtxo] demoAddr ["aa"] ClientError.rpcError _
      (Prod.ext h1 (Prod.ext rfl h3))

end ZcashHtlc
